import Mathlib

/-!
Verification of the token lifecycle engine of mod_authnz_jwt.

This file shallowly embeds the core of `src/mod_authnz_jwt.c`:

* the two-scope configuration record `auth_jwt_config_rec` and its
  per-request resolver `get_config_value`;
* the key-length policy `check_key_length`;
* the signing-algorithm selection performed by `create_token`;
* the verification pipeline `token_check`;
* the provider chain `check_authn`;
* the bearer-token authentication handler `auth_jwt_authn_with_token`.

Modelling conventions:

* C `NULL`-able pointers become `Option`; C int truthiness (`if(x)`) becomes
  an explicit comparison with `0` or `Option.isSome`.
* Machine integers (`int`, `time_t`) become `Int`; none of the verified
  claims depends on overflow behaviour.
* The opaque libjwt codec (`jwt_decode`, `jwt_get_alg`, `jwt_get_grant`) is
  modelled by a `DecodedToken` record carrying the decode outcome, the
  declared algorithm, and the claims of the presented token.  Time claims
  are decimal strings in the wire format and are read back through `atoi`;
  they are modelled directly as integers.
* A C expression whose evaluation is undefined behaviour (dereferencing a
  `NULL` pointer, `strcmp` on `NULL`) is modelled by the whole function
  returning `none` ("stuck"); a defined outcome is `some r`.
-/

/-- Verdicts of the authentication provider interface (`authn_status` of
mod_auth.h), as used by `check_authn`. -/
inductive authn_status
  | AUTH_GRANTED
  | AUTH_DENIED
  | AUTH_USER_NOT_FOUND
  | AUTH_GENERAL_ERROR
deriving DecidableEq

/-- Configuration record, one per scope, mirroring `auth_jwt_config_rec`.
Pointer fields are `Option`; each directive has its companion `_set` flag.
The provider list (directory scope only) is modelled by the verdict each
provider's `check_password` returns for the supplied credentials: the
chain's behaviour depends on the providers only through those verdicts. -/
structure auth_jwt_config_rec where
  providers : List authn_status
  signature_algorithm : Option String
  signature_algorithm_set : Bool
  signature_secret : Option String
  signature_secret_set : Bool
  exp_delay : Int
  exp_delay_set : Bool
  nbf_delay : Int
  nbf_delay_set : Bool
  leeway : Int
  leeway_set : Bool
  iss : Option String
  iss_set : Bool
  sub : Option String
  sub_set : Bool
  aud : Option String
  aud_set : Bool
deriving DecidableEq

/-- The directive enumeration `jwt_directive` of the source. -/
inductive jwt_directive
  | dir_signature_algorithm
  | dir_signature_secret
  | dir_exp_delay
  | dir_nbf_delay
  | dir_iss
  | dir_sub
  | dir_aud
  | dir_leeway
deriving DecidableEq

/-- A resolved configuration value: string directives and integer directives
share the `void*` return of `get_config_value`. -/
inductive ConfigValue
  | str (s : String)
  | int (n : Int)
deriving DecidableEq

/-- Directory-scope defaults built by `create_auth_jwt_dir_config`:
`apr_pcalloc` zeroes everything, then `leeway = 0`, `exp_delay = 3600`,
`nbf_delay = 0`, and every `_set` flag is cleared. -/
def create_auth_jwt_dir_config : auth_jwt_config_rec where
  providers := []
  signature_algorithm := none
  signature_algorithm_set := false
  signature_secret := none
  signature_secret_set := false
  exp_delay := 3600
  exp_delay_set := false
  nbf_delay := 0
  nbf_delay_set := false
  leeway := 0
  leeway_set := false
  iss := none
  iss_set := false
  sub := none
  sub_set := false
  aud := none
  aud_set := false

/-- Server-scope defaults built by `create_auth_jwt_config`: `apr_pcalloc`
zeroes everything and every `_set` flag is cleared. -/
def create_auth_jwt_config : auth_jwt_config_rec where
  providers := []
  signature_algorithm := none
  signature_algorithm_set := false
  signature_secret := none
  signature_secret_set := false
  exp_delay := 0
  exp_delay_set := false
  nbf_delay := 0
  nbf_delay_set := false
  leeway := 0
  leeway_set := false
  iss := none
  iss_set := false
  sub := none
  sub_set := false
  aud := none
  aud_set := false

/-- Case `dir_signature_algorithm` of `get_config_value`:
`if(dconf->signature_algorithm_set && dconf->signature_algorithm) ...
else if(sconf->signature_algorithm) ...` — note the server branch tests the
pointer, not the `_set` flag. -/
def resolve_signature_algorithm (dconf sconf : auth_jwt_config_rec) : Option String :=
  if dconf.signature_algorithm_set && dconf.signature_algorithm.isSome then
    dconf.signature_algorithm
  else if sconf.signature_algorithm.isSome then
    sconf.signature_algorithm
  else
    none

/-- Case `dir_signature_secret` of `get_config_value`: the server branch is
`sconf->signature_algorithm_set && sconf->signature_secret` — it gates the
secret on the *algorithm* `_set` flag of the server scope. -/
def resolve_signature_secret (dconf sconf : auth_jwt_config_rec) : Option String :=
  if dconf.signature_secret_set && dconf.signature_secret.isSome then
    dconf.signature_secret
  else if sconf.signature_algorithm_set && sconf.signature_secret.isSome then
    sconf.signature_secret
  else
    none

/-- Case `dir_iss` of `get_config_value`. -/
def resolve_iss (dconf sconf : auth_jwt_config_rec) : Option String :=
  if dconf.iss_set && dconf.iss.isSome then
    dconf.iss
  else if sconf.iss_set && sconf.iss.isSome then
    sconf.iss
  else
    none

/-- Case `dir_aud` of `get_config_value`: the server branch is
`sconf->iss_set && sconf->aud` — it gates the audience on the *issuer*
`_set` flag of the server scope. -/
def resolve_aud (dconf sconf : auth_jwt_config_rec) : Option String :=
  if dconf.aud_set && dconf.aud.isSome then
    dconf.aud
  else if sconf.iss_set && sconf.aud.isSome then
    sconf.aud
  else
    none

/-- Case `dir_sub` of `get_config_value`. -/
def resolve_sub (dconf sconf : auth_jwt_config_rec) : Option String :=
  if dconf.sub_set && dconf.sub.isSome then
    dconf.sub
  else if sconf.sub_set && sconf.sub.isSome then
    sconf.sub
  else
    none

/-- Case `dir_exp_delay` of `get_config_value`: flag-only tests, the value is
the address of the stored int. -/
def resolve_exp_delay (dconf sconf : auth_jwt_config_rec) : Option Int :=
  if dconf.exp_delay_set then some dconf.exp_delay
  else if sconf.exp_delay_set then some sconf.exp_delay
  else none

/-- Case `dir_nbf_delay` of `get_config_value`. -/
def resolve_nbf_delay (dconf sconf : auth_jwt_config_rec) : Option Int :=
  if dconf.nbf_delay_set then some dconf.nbf_delay
  else if sconf.nbf_delay_set then some sconf.nbf_delay
  else none

/-- Case `dir_leeway` of `get_config_value`: the directory branch is
`if(dconf->leeway)` — C truthiness of the stored value, not the `_set`
flag — while the server branch tests `sconf->leeway_set`. -/
def resolve_leeway (dconf sconf : auth_jwt_config_rec) : Option Int :=
  if dconf.leeway ≠ 0 then some dconf.leeway
  else if sconf.leeway_set then some sconf.leeway
  else none

/-- The resolver `get_config_value` as one function over the directive
enumeration, assembling the per-case translations above; `none` is the C
function returning `NULL`. -/
def get_config_value (dconf sconf : auth_jwt_config_rec) :
    jwt_directive → Option ConfigValue
  | .dir_signature_algorithm => (resolve_signature_algorithm dconf sconf).map ConfigValue.str
  | .dir_signature_secret => (resolve_signature_secret dconf sconf).map ConfigValue.str
  | .dir_iss => (resolve_iss dconf sconf).map ConfigValue.str
  | .dir_aud => (resolve_aud dconf sconf).map ConfigValue.str
  | .dir_sub => (resolve_sub dconf sconf).map ConfigValue.str
  | .dir_exp_delay => (resolve_exp_delay dconf sconf).map ConfigValue.int
  | .dir_nbf_delay => (resolve_nbf_delay dconf sconf).map ConfigValue.int
  | .dir_leeway => (resolve_leeway dconf sconf).map ConfigValue.int

/-- The per-directive "is-set" flag of a scope. -/
def directive_set (c : auth_jwt_config_rec) : jwt_directive → Bool
  | .dir_signature_algorithm => c.signature_algorithm_set
  | .dir_signature_secret => c.signature_secret_set
  | .dir_iss => c.iss_set
  | .dir_aud => c.aud_set
  | .dir_sub => c.sub_set
  | .dir_exp_delay => c.exp_delay_set
  | .dir_nbf_delay => c.nbf_delay_set
  | .dir_leeway => c.leeway_set

/-- The per-directive stored value of a scope. -/
def directive_value (c : auth_jwt_config_rec) : jwt_directive → Option ConfigValue
  | .dir_signature_algorithm => c.signature_algorithm.map ConfigValue.str
  | .dir_signature_secret => c.signature_secret.map ConfigValue.str
  | .dir_iss => c.iss.map ConfigValue.str
  | .dir_aud => c.aud.map ConfigValue.str
  | .dir_sub => c.sub.map ConfigValue.str
  | .dir_exp_delay => some (ConfigValue.int c.exp_delay)
  | .dir_nbf_delay => some (ConfigValue.int c.nbf_delay)
  | .dir_leeway => some (ConfigValue.int c.leeway)

/-- Modelled from the spec: the resolution rule of §3/§4.1 — directory value
when the directory scope's own "is-set" flag is true, else the server value
when the server scope's own "is-set" flag is true, else absent.  Used to
compare the spec's rule against `get_config_value`. -/
def spec_resolve (dconf sconf : auth_jwt_config_rec) (d : jwt_directive) :
    Option ConfigValue :=
  if directive_set dconf d then directive_value dconf d
  else if directive_set sconf d then directive_value sconf d
  else none

/-- A scope is well formed when each string directive's `_set` flag agrees
with the presence of its stored value.  Every configuration reachable from
the directive handlers (`set_jwt_param` sets the value and the flag
together; `apr_pcalloc` clears both) satisfies this. -/
def wellFormed (c : auth_jwt_config_rec) : Prop :=
  c.signature_algorithm_set = c.signature_algorithm.isSome ∧
  c.signature_secret_set = c.signature_secret.isSome ∧
  c.iss_set = c.iss.isSome ∧
  c.sub_set = c.sub.isSome ∧
  c.aud_set = c.aud.isSome

instance (c : auth_jwt_config_rec) : Decidable (wellFormed c) := by
  unfold wellFormed
  infer_instance

/-- The resolution rule actually implemented by `get_config_value` for the
seven non-leeway directives, on well-formed scopes: it agrees with the
spec's rule except that the server-scope fallback for `signature_secret`
is additionally gated on the server `signature_algorithm_set` flag, and the
server-scope fallback for `aud` is gated on the server `iss_set` flag
instead of the `aud_set` flag. -/
def amended_resolve (dconf sconf : auth_jwt_config_rec) :
    jwt_directive → Option ConfigValue
  | .dir_signature_secret =>
      if dconf.signature_secret_set then dconf.signature_secret.map ConfigValue.str
      else if sconf.signature_algorithm_set && sconf.signature_secret_set then
        sconf.signature_secret.map ConfigValue.str
      else none
  | .dir_aud =>
      if dconf.aud_set then dconf.aud.map ConfigValue.str
      else if sconf.iss_set && sconf.aud_set then sconf.aud.map ConfigValue.str
      else none
  | d => spec_resolve dconf sconf d

/-- Outcome of `check_key_length`: `OK`, or an error with the HTTP-style
return code of the source (`HTTP_INTERNAL_SERVER_ERROR` = 500 for a wrong
length, the bare value 2 for an unsupported algorithm name) and the message
the source logs. -/
inductive KeyCheckResult
  | ok
  | err (http_code : Nat) (log_message : String)
deriving DecidableEq

/-- Translation of `check_key_length`: `key_len = strlen(key)` compared
against a per-algorithm constant, with the logged message reproduced
verbatim (the `%d` of the source renders the current length). -/
def check_key_length (key : String) (algorithm : String) : KeyCheckResult :=
  let key_len := key.length
  if algorithm = "HS512" then
    if key_len ≠ 64 then
      .err 500 "The secret length must be 64 with HMAC SHA512 algorithm"
    else .ok
  else if algorithm = "HS384" then
    if key_len ≠ 32 then
      .err 500 ("The secret length must be 48 with HMAC SHA384 algorithm (current length is "
        ++ toString key_len ++ ")")
    else .ok
  else if algorithm = "HS256" then
    if key_len ≠ 32 then
      .err 500 ("The secret length must be 32 with HMAC SHA256 algorithm (current length is "
        ++ toString key_len ++ ")")
    else .ok
  else
    .err 2 "The only supported algorithms are HS256 (HMAC SHA256), HS384 (HMAC SHA384), and HS515 (HMAC SHA512)"

/-- The `jwt_alg_t` tags of libjwt used by the module. -/
inductive jwt_alg_t
  | JWT_ALG_NONE
  | JWT_ALG_HS256
  | JWT_ALG_HS384
  | JWT_ALG_HS512
deriving DecidableEq

/-- The `token_set_alg` call made by `create_token` for each configured
algorithm name: the libjwt tag and the key length passed alongside the
secret; `none` models the final `else` branch, which returns
`HTTP_INTERNAL_SERVER_ERROR` without signing.  Note the `HS384` branch of
the source passes `JWT_ALG_HS256` with length 48. -/
def create_token_set_alg (signature_algorithm : String) : Option (jwt_alg_t × Nat) :=
  if signature_algorithm = "HS512" then some (.JWT_ALG_HS512, 64)
  else if signature_algorithm = "HS384" then some (.JWT_ALG_HS256, 48)
  else if signature_algorithm = "HS256" then some (.JWT_ALG_HS256, 32)
  else none

/-- The view of a presented token that `token_check` obtains through the
libjwt codec: whether `jwt_decode` succeeds (structure and signature valid
for the supplied key), the algorithm `jwt_get_alg` reports, and the claims
`jwt_get_grant` returns (`none` = claim absent).  The time claims are
decimal strings on the wire and are read via `atoi`; they are modelled as
the integers that read yields. -/
structure DecodedToken where
  decode_ok : Bool
  alg : jwt_alg_t
  iss : Option String
  aud : Option String
  sub : Option String
  exp : Option Int
  nbf : Option Int
  user : Option String
deriving DecidableEq

/-- Rejection reasons of the `token_check` pipeline; every one is returned
as `HTTP_UNAUTHORIZED` with a `WWW-Authenticate` challenge carrying
`error="invalid_token"`.  `malformed` is the failed-decode branch and
`alg_none` the none-algorithm branch (both use the description
"Token is malformed" in the source). -/
inductive RejectReason
  | malformed
  | alg_none
  | issuer_mismatch
  | audience_mismatch
  | subject_mismatch
  | expired
  | exp_missing
  | nbf_future
deriving DecidableEq

/-- Result of `token_check`: `OK`, `HTTP_INTERNAL_SERVER_ERROR` from the
key-length check, or `HTTP_UNAUTHORIZED` with an `invalid_token`
challenge. -/
inductive TCResult
  | ok
  | internalError
  | reject (reason : RejectReason)
deriving DecidableEq

/-- The claim-equality test of `token_check`:
`if(cfg && claim && strcmp(cfg, claim)!=0)` — a mismatch needs both sides
present and unequal. -/
def claim_mismatch (config claim : Option String) : Bool :=
  match config, claim with
  | some c, some t => c ≠ t
  | _, _ => false

/-- The exp and nbf time-window checks closing `token_check`: a missing exp
claim is rejected; a present exp is rejected when `exp + leeway < now`; a
present nbf is rejected when `nbf - leeway > now`; otherwise `OK`.  The two
`time(NULL)` captures of the exp and nbf blocks are modelled by the single
instant `now`. -/
def token_check_time (leeway : Int) (tok : DecodedToken) (now : Int) : TCResult :=
  match tok.exp with
  | none => TCResult.reject RejectReason.exp_missing
  | some exp_int =>
    if exp_int + leeway < now then
      TCResult.reject RejectReason.expired
    else
      match tok.nbf with
      | none => TCResult.ok
      | some nbf_int =>
        if nbf_int - leeway > now then
          TCResult.reject RejectReason.nbf_future
        else
          TCResult.ok

/-- Tail of `token_check` after the leeway dereference succeeded: the
issuer, audience and subject equality checks, then the exp and nbf
time-window checks, in source order. -/
def token_check_claims (iss_config aud_config sub_config : Option String)
    (leeway : Int) (tok : DecodedToken) (now : Int) : TCResult :=
  if claim_mismatch iss_config tok.iss then
    TCResult.reject RejectReason.issuer_mismatch
  else if claim_mismatch aud_config tok.aud then
    TCResult.reject RejectReason.audience_mismatch
  else if claim_mismatch sub_config tok.sub then
    TCResult.reject RejectReason.subject_mismatch
  else
    token_check_time leeway tok now

/-- Translation of `token_check`.  The result is `none` ("stuck") exactly
where the C executes undefined behaviour: the resolved signature algorithm
is handed to `check_key_length`, whose `strcmp` reads it without a `NULL`
test, and the resolved leeway is read by an unguarded `*(int*)`
dereference.  The resolved signature secret of the source is unused (the
`key` parameter supplied by the caller is used instead) and is omitted.
The per-claim checks after the leeway dereference are
`token_check_claims`. -/
def token_check (dconf sconf : auth_jwt_config_rec) (key : String)
    (tok : DecodedToken) (now : Int) : Option TCResult :=
  match resolve_signature_algorithm dconf sconf with
  | none => none
  | some signature_algorithm =>
    if check_key_length key signature_algorithm ≠ KeyCheckResult.ok then
      some TCResult.internalError
    else if tok.decode_ok = false then
      some (TCResult.reject RejectReason.malformed)
    else if tok.alg = jwt_alg_t.JWT_ALG_NONE then
      some (TCResult.reject RejectReason.alg_none)
    else
      match resolve_leeway dconf sconf with
      | none => none
      | some leeway =>
        some (token_check_claims (resolve_iss dconf sconf) (resolve_aud dconf sconf)
          (resolve_sub dconf sconf) leeway tok now)

/-- The provider loop of `check_authn`, returning the final `authn_result`
together with the number of `check_password` invocations made.  The list is
the directory scope's ordered providers; each element is the verdict that
provider returns for the supplied credentials.  An empty list hits the
`!current_provider` branch (`AUTH_GENERAL_ERROR`); absent (`NULL`)
credentials break out with `AUTH_USER_NOT_FOUND` before any invocation; a
verdict other than `AUTH_USER_NOT_FOUND` short-circuits. -/
def check_authn_loop (providers : List authn_status)
    (username password : Option String) : authn_status × Nat :=
  match providers with
  | [] => (authn_status.AUTH_GENERAL_ERROR, 0)
  | v :: rest =>
    if username.isNone || password.isNone then
      (authn_status.AUTH_USER_NOT_FOUND, 0)
    else if v ≠ authn_status.AUTH_USER_NOT_FOUND then
      (v, 1)
    else
      match rest with
      | [] => (authn_status.AUTH_USER_NOT_FOUND, 1)
      | _ :: _ =>
        let r := check_authn_loop rest username password
        (r.1, r.2 + 1)

/-- The result mapping of `check_authn`: `AUTH_GRANTED` → `OK` (0),
`AUTH_DENIED` and `AUTH_USER_NOT_FOUND` → `HTTP_UNAUTHORIZED` (401),
`AUTH_GENERAL_ERROR` and the default branch → 500. -/
def check_authn (dconf : auth_jwt_config_rec)
    (username password : Option String) : Int :=
  match (check_authn_loop dconf.providers username password).1 with
  | authn_status.AUTH_GRANTED => 0
  | authn_status.AUTH_DENIED => 401
  | authn_status.AUTH_USER_NOT_FOUND => 401
  | authn_status.AUTH_GENERAL_ERROR => 500

/-- Outcomes of the bearer-token authentication handler
`auth_jwt_authn_with_token`: declined (not our auth type), internal error,
`HTTP_UNAUTHORIZED` with a realm-only challenge (no Authorization header),
`HTTP_UNAUTHORIZED` with an `invalid_token` challenge (from `token_check`),
`HTTP_UNAUTHORIZED` for a token lacking the `user` claim,
`HTTP_BAD_REQUEST` with an `invalid_request` challenge (header not of
Bearer form), or success with the authenticated user. -/
inductive AuthnHandlerResult
  | declined
  | internalError
  | unauthorizedRealm
  | unauthorizedInvalidToken (reason : RejectReason)
  | unauthorizedUserMissing
  | badRequest
  | ok (user : String)
deriving DecidableEq

/-- Translation of `auth_jwt_authn_with_token`.  `auth_type` is
`ap_auth_type(r)`, `auth_name` is `ap_auth_name(r)`,
`authorization_header` the `Authorization` request header; when the header
carries a well-formed `Bearer` token, `tok` is the codec's view of that
token.  `none` propagates a stuck `token_check`. -/
def auth_jwt_authn_with_token (dconf sconf : auth_jwt_config_rec)
    (auth_type : Option String) (auth_name : Option String)
    (authorization_header : Option String) (tok : DecodedToken) (now : Int) :
    Option AuthnHandlerResult :=
  match auth_type with
  | none => some AuthnHandlerResult.declined
  | some t =>
    if t ≠ "jwt" then some AuthnHandlerResult.declined
    else match auth_name with
    | none => some AuthnHandlerResult.internalError
    | some _ =>
      match resolve_signature_secret dconf sconf with
      | none => some AuthnHandlerResult.internalError
      | some signature_secret =>
        match authorization_header with
        | none => some AuthnHandlerResult.unauthorizedRealm
        | some header =>
          if 7 < header.length ∧ header.take 7 = "Bearer " then
            match token_check dconf sconf signature_secret tok now with
            | none => none
            | some TCResult.ok =>
              match tok.user with
              | none => some AuthnHandlerResult.unauthorizedUserMissing
              | some u => some (AuthnHandlerResult.ok u)
            | some TCResult.internalError => some AuthnHandlerResult.internalError
            | some (TCResult.reject reason) =>
              some (AuthnHandlerResult.unauthorizedInvalidToken reason)
          else
            some AuthnHandlerResult.badRequest

/-- Server scope holding only a signature secret: reachable by configuring
`AuthJWTSignatureSecret` (and no other directive) at server level. -/
def sconf_secret_only : auth_jwt_config_rec :=
  { create_auth_jwt_config with
      signature_secret := some "0123456789abcdef0123456789abcdef"
      signature_secret_set := true }

/-- Directory scope configuring the HS256 algorithm and nothing else. -/
def dconf_hs256 : auth_jwt_config_rec :=
  { create_auth_jwt_dir_config with
      signature_algorithm := some "HS256"
      signature_algorithm_set := true }

/-- Directory scope configuring HS256 and a leeway of 2 seconds. -/
def dconf_hs256_leeway2 : auth_jwt_config_rec :=
  { dconf_hs256 with leeway := 2 }

/-- Server scope where `AuthJWTLeeway 0` was configured: the flag is set
and the stored value is the default 0. -/
def sconf_leeway0 : auth_jwt_config_rec :=
  { create_auth_jwt_config with leeway_set := true }

/-- A 32-byte secret, the length HS256 requires. -/
def key32 : String := "0123456789abcdef0123456789abcdef"

/-- A structurally valid HS256 token carrying only `exp = 99` and
`user = "alice"`. -/
def tok_exp99 : DecodedToken where
  decode_ok := true
  alg := jwt_alg_t.JWT_ALG_HS256
  iss := none
  aud := none
  sub := none
  exp := some 99
  nbf := none
  user := some "alice"

/-- The token above with the none algorithm declared in its header and a
valid signature. -/
def tok_none_good : DecodedToken :=
  { tok_exp99 with alg := jwt_alg_t.JWT_ALG_NONE }

/-- The token above with the none algorithm and a failing decode. -/
def tok_none_bad : DecodedToken :=
  { tok_none_good with decode_ok := false }

/-- Directory scope configuring HS256, issuer "A" and a leeway of 2. -/
def dconf_hs256_issA : auth_jwt_config_rec :=
  { dconf_hs256 with
      iss := some "A"
      iss_set := true
      leeway := 2 }

/-- The valid token claiming issuer "B". -/
def tok_issB : DecodedToken :=
  { tok_exp99 with iss := some "B" }

/-- Directory scope configuring only a leeway of 2; no signature algorithm
is configured in either scope. -/
def dconf_leeway2 : auth_jwt_config_rec :=
  { create_auth_jwt_dir_config with leeway := 2 }

/-- C1 counterexample: with an untouched directory scope and a well-formed
server scope whose only configured directive is the signature secret, the
spec's resolution rule yields the server-scope secret, but
`get_config_value` yields absent — its server branch for the secret is
gated on the server scope's `signature_algorithm_set` flag, so the result
does depend on the is-set flag of another field. -/
theorem C1_counterexample :
    wellFormed create_auth_jwt_dir_config ∧
    wellFormed sconf_secret_only ∧
    spec_resolve create_auth_jwt_dir_config sconf_secret_only
        jwt_directive.dir_signature_secret
      = some (ConfigValue.str "0123456789abcdef0123456789abcdef") ∧
    get_config_value create_auth_jwt_dir_config sconf_secret_only
        jwt_directive.dir_signature_secret = none := by
  decide

/-- C1 (amended): on well-formed scopes, for every directive other than
leeway, `get_config_value` follows the spec's directory-then-server rule
except that the server-scope fallback for `signature_secret` is additionally
gated on the server `signature_algorithm_set` flag, and the server-scope
fallback for `aud` is gated on the server `iss_set` flag instead of its own
`aud_set` flag (captured by `amended_resolve`). -/
theorem C1_amended_rule (dconf sconf : auth_jwt_config_rec)
    (hd : wellFormed dconf) (hs : wellFormed sconf) (d : jwt_directive)
    (hne : d ≠ jwt_directive.dir_leeway) :
    get_config_value dconf sconf d = amended_resolve dconf sconf d := by
  obtain ⟨hd1, hd2, hd3, hd4, hd5⟩ := hd
  obtain ⟨hs1, hs2, hs3, hs4, hs5⟩ := hs
  cases d
  case dir_signature_algorithm =>
    cases hA : dconf.signature_algorithm <;> cases hB : sconf.signature_algorithm <;>
      simp_all [get_config_value, amended_resolve, spec_resolve, directive_set,
        directive_value, resolve_signature_algorithm]
  case dir_signature_secret =>
    cases hA : dconf.signature_secret <;> cases hB : sconf.signature_secret <;>
      simp_all [get_config_value, amended_resolve, spec_resolve, directive_set,
        directive_value, resolve_signature_secret]
  case dir_iss =>
    cases hA : dconf.iss <;> cases hB : sconf.iss <;>
      simp_all [get_config_value, amended_resolve, spec_resolve, directive_set,
        directive_value, resolve_iss]
  case dir_aud =>
    cases hA : dconf.aud <;> cases hB : sconf.aud <;>
      simp_all [get_config_value, amended_resolve, spec_resolve, directive_set,
        directive_value, resolve_aud]
  case dir_sub =>
    cases hA : dconf.sub <;> cases hB : sconf.sub <;>
      simp_all [get_config_value, amended_resolve, spec_resolve, directive_set,
        directive_value, resolve_sub]
  case dir_exp_delay =>
    simp [get_config_value, amended_resolve, spec_resolve, directive_set,
      directive_value, resolve_exp_delay]
    by_cases h1 : dconf.exp_delay_set <;> by_cases h2 : sconf.exp_delay_set <;> simp [h1, h2]
  case dir_nbf_delay =>
    simp [get_config_value, amended_resolve, spec_resolve, directive_set,
      directive_value, resolve_nbf_delay]
    by_cases h1 : dconf.nbf_delay_set <;> by_cases h2 : sconf.nbf_delay_set <;> simp [h1, h2]
  case dir_leeway =>
    exact absurd rfl hne

/-- C1 witness: the amended rule evaluated on concrete well-formed scopes —
the directory default against the secret-only server scope, on the
signature-secret directive. -/
theorem C1_amended_rule_witness :
    get_config_value create_auth_jwt_dir_config sconf_secret_only
        jwt_directive.dir_signature_secret
      = amended_resolve create_auth_jwt_dir_config sconf_secret_only
        jwt_directive.dir_signature_secret ∧
    amended_resolve create_auth_jwt_dir_config sconf_secret_only
        jwt_directive.dir_signature_secret = none :=
  ⟨C1_amended_rule create_auth_jwt_dir_config sconf_secret_only
      (by decide) (by decide) jwt_directive.dir_signature_secret (by decide),
    by decide⟩

/-- C2: the leeway directive is resolved by truthiness of the
directory-stored value — the directory value whenever it is nonzero — and
the result never consults the directory `leeway_set` flag (third conjunct);
when the directory-stored leeway is zero, even with its `leeway_set` flag
true, resolution falls through to the server scope (second conjunct). -/
theorem C2_leeway_truthiness (dconf sconf : auth_jwt_config_rec) :
    get_config_value dconf sconf jwt_directive.dir_leeway
      = (if dconf.leeway ≠ 0 then some (ConfigValue.int dconf.leeway)
         else if sconf.leeway_set then some (ConfigValue.int sconf.leeway)
         else none) ∧
    get_config_value { dconf with leeway := 0, leeway_set := true } sconf
        jwt_directive.dir_leeway
      = (if sconf.leeway_set then some (ConfigValue.int sconf.leeway) else none) ∧
    (∀ b : Bool,
      get_config_value { dconf with leeway_set := b } sconf jwt_directive.dir_leeway
        = get_config_value dconf sconf jwt_directive.dir_leeway) := by
  refine ⟨?_, ?_, ?_⟩
  · by_cases h1 : dconf.leeway = 0 <;> by_cases h2 : sconf.leeway_set <;>
      simp [get_config_value, resolve_leeway, h1, h2]
  · by_cases h2 : sconf.leeway_set <;> simp [get_config_value, resolve_leeway, h2]
  · intro b
    by_cases h1 : dconf.leeway = 0 <;> by_cases h2 : sconf.leeway_set <;>
      simp [get_config_value, resolve_leeway, h1, h2]

/-- C3: the key policy accepts HS256 exactly on 32-byte secrets, HS512
exactly on 64-byte secrets, and rejects every algorithm name outside
HS256, HS384, HS512. -/
theorem C3_key_policy (key alg : String)
    (h256 : alg ≠ "HS256") (h384 : alg ≠ "HS384") (h512 : alg ≠ "HS512") :
    (check_key_length key "HS256" = KeyCheckResult.ok ↔ key.length = 32) ∧
    (check_key_length key "HS512" = KeyCheckResult.ok ↔ key.length = 64) ∧
    check_key_length key alg ≠ KeyCheckResult.ok := by
  refine ⟨?_, ?_, ?_⟩
  · unfold check_key_length
    rw [if_neg (by decide), if_neg (by decide), if_pos rfl]
    by_cases h : key.length = 32 <;> simp [h]
  · unfold check_key_length
    rw [if_pos rfl]
    by_cases h : key.length = 64 <;> simp [h]
  · unfold check_key_length
    rw [if_neg h512, if_neg h384, if_neg h256]
    simp

/-- C3 witness: the exhaustive boundary table — HS256 rejects 31 bytes and
accepts 32; HS512 rejects 63 bytes and accepts 64; an unknown algorithm
name is rejected with a 32-byte secret. -/
theorem C3_key_policy_witness :
    check_key_length "0123456789abcdef0123456789abcde" "HS256" ≠ KeyCheckResult.ok ∧
    check_key_length "0123456789abcdef0123456789abcdef" "HS256" = KeyCheckResult.ok ∧
    check_key_length "0123456789abcdef0123456789abcdef0123456789abcdef0123456789abcde" "HS512"
      ≠ KeyCheckResult.ok ∧
    check_key_length "0123456789abcdef0123456789abcdef0123456789abcdef0123456789abcdef" "HS512"
      = KeyCheckResult.ok ∧
    check_key_length "0123456789abcdef0123456789abcdef" "ES256" ≠ KeyCheckResult.ok := by
  have h31 := C3_key_policy "0123456789abcdef0123456789abcde" "ES256"
    (by decide) (by decide) (by decide)
  have h32 := C3_key_policy "0123456789abcdef0123456789abcdef" "ES256"
    (by decide) (by decide) (by decide)
  have h63 := C3_key_policy "0123456789abcdef0123456789abcdef0123456789abcdef0123456789abcde"
    "ES256" (by decide) (by decide) (by decide)
  have h64 := C3_key_policy "0123456789abcdef0123456789abcdef0123456789abcdef0123456789abcdef"
    "ES256" (by decide) (by decide) (by decide)
  refine ⟨fun hok => absurd (h31.1.mp hok) (by decide),
    h32.1.mpr (by decide),
    fun hok => absurd (h63.2.1.mp hok) (by decide),
    h64.2.1.mpr (by decide),
    h32.2.2⟩

/-- C4: for the HS384 algorithm name the key-length check accepts exactly
length 32 — the HS256 length — while the message it logs on rejection
claims that 48 is required, and `create_token` tags an HS384 signing
request with the libjwt HS256 tag and key length 48; the enforced length,
the reported length, and the signing tag are mutually inconsistent. -/
theorem C4_hs384_inconsistency (key : String) :
    (check_key_length key "HS384" = KeyCheckResult.ok ↔ key.length = 32) ∧
    (key.length ≠ 32 →
      check_key_length key "HS384"
        = KeyCheckResult.err 500
            ("The secret length must be 48 with HMAC SHA384 algorithm (current length is "
              ++ toString key.length ++ ")")) ∧
    create_token_set_alg "HS384" = some (jwt_alg_t.JWT_ALG_HS256, 48) ∧
    create_token_set_alg "HS256" = some (jwt_alg_t.JWT_ALG_HS256, 32) ∧
    (32 : Nat) ≠ 48 ∧
    jwt_alg_t.JWT_ALG_HS256 ≠ jwt_alg_t.JWT_ALG_HS384 := by
  refine ⟨?_, ?_, by decide, by decide, by decide, by decide⟩
  · unfold check_key_length
    rw [if_neg (by decide), if_pos rfl]
    by_cases h : key.length = 32 <;> simp [h]
  · intro hlen
    unfold check_key_length
    rw [if_neg (by decide), if_pos rfl, if_pos hlen]

/-- C4 witness: a 32-byte secret under HS384 is accepted — the enforced
length really is 32 — while a 31-byte secret is rejected with the message
demanding 48 bytes. -/
theorem C4_hs384_inconsistency_witness :
    check_key_length "0123456789abcdef0123456789abcdef" "HS384" = KeyCheckResult.ok ∧
    check_key_length "0123456789abcdef0123456789abcde" "HS384"
      = KeyCheckResult.err 500
          "The secret length must be 48 with HMAC SHA384 algorithm (current length is 31)" := by
  have h32 := C4_hs384_inconsistency "0123456789abcdef0123456789abcdef"
  have h31 := C4_hs384_inconsistency "0123456789abcdef0123456789abcde"
  refine ⟨h32.1.mpr (by decide), ?_⟩
  rw [h31.2.1 (by decide)]
  decide

/-- A token that passes the key-length, decode, none-algorithm and leeway
stages of `token_check` is handed to the claim checks of
`token_check_claims` with the three resolved claim values and the resolved
leeway. -/
theorem token_check_reaches_claims (dconf sconf : auth_jwt_config_rec) (key : String)
    (tok : DecodedToken) (now : Int) (alg : String) (leeway : Int)
    (halg : resolve_signature_algorithm dconf sconf = some alg)
    (hkey : check_key_length key alg = KeyCheckResult.ok)
    (hdec : tok.decode_ok = true)
    (hnone : tok.alg ≠ jwt_alg_t.JWT_ALG_NONE)
    (hlee : resolve_leeway dconf sconf = some leeway) :
    token_check dconf sconf key tok now
      = some (token_check_claims (resolve_iss dconf sconf) (resolve_aud dconf sconf)
          (resolve_sub dconf sconf) leeway tok now) := by
  unfold token_check
  rw [halg, hlee]
  simp [hkey, hdec, hnone]

/-- The time-window tail produces one of four outcomes. -/
theorem token_check_time_cases (leeway : Int) (tok : DecodedToken) (now : Int) :
    token_check_time leeway tok now = TCResult.reject RejectReason.exp_missing ∨
    token_check_time leeway tok now = TCResult.reject RejectReason.expired ∨
    token_check_time leeway tok now = TCResult.reject RejectReason.nbf_future ∨
    token_check_time leeway tok now = TCResult.ok := by
  unfold token_check_time
  cases tok.exp with
  | none => simp
  | some e =>
    by_cases hc : e + leeway < now
    · simp [hc]
    · cases tok.nbf with
      | none => simp [hc]
      | some n => by_cases hn : n - leeway > now <;> simp [hc, hn]

/-- C5: for every token reaching the expiration stage (key length, decode,
none-algorithm, leeway resolution and the three claim-equality checks all
passed), a missing exp claim is rejected as invalid_token with the
expiration-missing description, a present exp is rejected as expired
exactly when `exp + leeway < now`, and a token with a satisfied exp check
and no nbf claim is accepted. -/
theorem C5_expiration_stage (dconf sconf : auth_jwt_config_rec) (key : String)
    (tok : DecodedToken) (now : Int) (alg : String) (leeway : Int)
    (halg : resolve_signature_algorithm dconf sconf = some alg)
    (hkey : check_key_length key alg = KeyCheckResult.ok)
    (hdec : tok.decode_ok = true)
    (hnone : tok.alg ≠ jwt_alg_t.JWT_ALG_NONE)
    (hlee : resolve_leeway dconf sconf = some leeway)
    (hiss : claim_mismatch (resolve_iss dconf sconf) tok.iss = false)
    (haud : claim_mismatch (resolve_aud dconf sconf) tok.aud = false)
    (hsub : claim_mismatch (resolve_sub dconf sconf) tok.sub = false) :
    (tok.exp = none →
      token_check dconf sconf key tok now
        = some (TCResult.reject RejectReason.exp_missing)) ∧
    (∀ e : Int, tok.exp = some e →
      (token_check dconf sconf key tok now = some (TCResult.reject RejectReason.expired)
        ↔ e + leeway < now)) ∧
    (∀ e : Int, tok.exp = some e → ¬(e + leeway < now) → tok.nbf = none →
      token_check dconf sconf key tok now = some TCResult.ok) := by
  rw [token_check_reaches_claims dconf sconf key tok now alg leeway halg hkey hdec hnone hlee]
  refine ⟨?_, ?_, ?_⟩
  · intro hexp
    simp [token_check_claims, token_check_time, hiss, haud, hsub, hexp]
  · intro e he
    by_cases hc : e + leeway < now
    · simp [token_check_claims, token_check_time, hiss, haud, hsub, he, hc]
    · cases hnbf : tok.nbf with
      | none => simp [token_check_claims, token_check_time, hiss, haud, hsub, he, hc, hnbf]
      | some n =>
        by_cases hn : n - leeway > now <;>
          simp [token_check_claims, token_check_time, hiss, haud, hsub, he, hc, hnbf, hn]
  · intro e he hc hnbf
    simp [token_check_claims, token_check_time, hiss, haud, hsub, he, hc, hnbf]

/-- C5 witness: at `now = 100`, the token with `exp = 99` is rejected as
expired when the resolved leeway is 0, and accepted when the directory
leeway is 2. -/
theorem C5_expiration_stage_witness :
    token_check dconf_hs256 sconf_leeway0 key32 tok_exp99 100
      = some (TCResult.reject RejectReason.expired) ∧
    token_check dconf_hs256_leeway2 create_auth_jwt_config key32 tok_exp99 100
      = some TCResult.ok := by
  have hA := C5_expiration_stage dconf_hs256 sconf_leeway0 key32 tok_exp99 100 "HS256" 0
    (by decide) (by decide) (by decide) (by decide) (by decide)
    (by decide) (by decide) (by decide)
  have hB := C5_expiration_stage dconf_hs256_leeway2 create_auth_jwt_config key32 tok_exp99 100
    "HS256" 2
    (by decide) (by decide) (by decide) (by decide) (by decide)
    (by decide) (by decide) (by decide)
  exact ⟨(hA.2.1 99 (by decide)).mpr (by decide), hB.2.2 99 (by decide) (by decide) (by decide)⟩

/-- C6: a decoded token whose header declares the none algorithm is always
rejected as invalid_token — when the codec's decode succeeds the
none-algorithm branch fires, and when it fails the malformed branch fires,
both `HTTP_UNAUTHORIZED` with an `error="invalid_token"` challenge. -/
theorem C6_alg_none_rejected (dconf sconf : auth_jwt_config_rec) (key : String)
    (tok : DecodedToken) (now : Int) (alg : String)
    (halg : resolve_signature_algorithm dconf sconf = some alg)
    (hkey : check_key_length key alg = KeyCheckResult.ok)
    (hnone : tok.alg = jwt_alg_t.JWT_ALG_NONE) :
    token_check dconf sconf key tok now
      = some (TCResult.reject
          (if tok.decode_ok then RejectReason.alg_none else RejectReason.malformed)) := by
  unfold token_check
  rw [halg]
  cases hdec : tok.decode_ok <;> simp [hkey, hdec, hnone]

/-- C6 witness: the none-algorithm token is rejected both when its decode
succeeds and when it fails. -/
theorem C6_alg_none_rejected_witness :
    token_check dconf_hs256 create_auth_jwt_config key32 tok_none_good 100
      = some (TCResult.reject RejectReason.alg_none) ∧
    token_check dconf_hs256 create_auth_jwt_config key32 tok_none_bad 100
      = some (TCResult.reject RejectReason.malformed) := by
  have h1 := C6_alg_none_rejected dconf_hs256 create_auth_jwt_config key32 tok_none_good 100
    "HS256" (by decide) (by decide) (by decide)
  have h2 := C6_alg_none_rejected dconf_hs256 create_auth_jwt_config key32 tok_none_bad 100
    "HS256" (by decide) (by decide) (by decide)
  exact ⟨h1.trans (by decide), h2.trans (by decide)⟩

/-- The claim-equality stage yields each mismatch rejection exactly when
its own check is the first to fail. -/
theorem token_check_claims_mismatch_iff (iss_config aud_config sub_config : Option String)
    (leeway : Int) (tok : DecodedToken) (now : Int) :
    (token_check_claims iss_config aud_config sub_config leeway tok now
        = TCResult.reject RejectReason.issuer_mismatch
      ↔ claim_mismatch iss_config tok.iss = true) ∧
    (token_check_claims iss_config aud_config sub_config leeway tok now
        = TCResult.reject RejectReason.audience_mismatch
      ↔ (claim_mismatch iss_config tok.iss = false ∧
          claim_mismatch aud_config tok.aud = true)) ∧
    (token_check_claims iss_config aud_config sub_config leeway tok now
        = TCResult.reject RejectReason.subject_mismatch
      ↔ (claim_mismatch iss_config tok.iss = false ∧
          claim_mismatch aud_config tok.aud = false ∧
          claim_mismatch sub_config tok.sub = true)) := by
  rcases token_check_time_cases leeway tok now with h | h | h | h <;>
    cases hi : claim_mismatch iss_config tok.iss <;>
      cases ha : claim_mismatch aud_config tok.aud <;>
        cases hs2 : claim_mismatch sub_config tok.sub <;>
          simp [token_check_claims, hi, ha, hs2, h]

/-- C7: for a token reaching the claim-equality checks, the issuer check
rejects exactly when both a configured issuer and a token issuer are
present and differ; the audience and subject checks behave the same once
the checks before them pass; a token omitting the iss claim is never
rejected by the issuer check. -/
theorem C7_claim_equality_checks (dconf sconf : auth_jwt_config_rec) (key : String)
    (tok : DecodedToken) (now : Int) (alg : String) (leeway : Int)
    (halg : resolve_signature_algorithm dconf sconf = some alg)
    (hkey : check_key_length key alg = KeyCheckResult.ok)
    (hdec : tok.decode_ok = true)
    (hnone : tok.alg ≠ jwt_alg_t.JWT_ALG_NONE)
    (hlee : resolve_leeway dconf sconf = some leeway) :
    (token_check dconf sconf key tok now = some (TCResult.reject RejectReason.issuer_mismatch)
      ↔ claim_mismatch (resolve_iss dconf sconf) tok.iss = true) ∧
    (token_check dconf sconf key tok now = some (TCResult.reject RejectReason.audience_mismatch)
      ↔ (claim_mismatch (resolve_iss dconf sconf) tok.iss = false ∧
          claim_mismatch (resolve_aud dconf sconf) tok.aud = true)) ∧
    (token_check dconf sconf key tok now = some (TCResult.reject RejectReason.subject_mismatch)
      ↔ (claim_mismatch (resolve_iss dconf sconf) tok.iss = false ∧
          claim_mismatch (resolve_aud dconf sconf) tok.aud = false ∧
          claim_mismatch (resolve_sub dconf sconf) tok.sub = true)) ∧
    (tok.iss = none →
      token_check dconf sconf key tok now ≠ some (TCResult.reject RejectReason.issuer_mismatch)) := by
  rw [token_check_reaches_claims dconf sconf key tok now alg leeway halg hkey hdec hnone hlee]
  have h := token_check_claims_mismatch_iff (resolve_iss dconf sconf) (resolve_aud dconf sconf)
    (resolve_sub dconf sconf) leeway tok now
  simp only [Option.some.injEq]
  refine ⟨h.1, h.2.1, h.2.2, ?_⟩
  intro hin hrej
  have hm := h.1.mp (Option.some.inj hrej)
  rw [hin] at hm
  cases resolve_iss dconf sconf <;> simp [claim_mismatch] at hm

/-- C7 witness: configured issuer "A" against token issuer "B" is rejected
as an issuer mismatch, and the same configuration accepts a token that
omits the iss claim entirely. -/
theorem C7_claim_equality_checks_witness :
    token_check dconf_hs256_issA create_auth_jwt_config key32 tok_issB 100
      = some (TCResult.reject RejectReason.issuer_mismatch) ∧
    token_check dconf_hs256_issA create_auth_jwt_config key32 tok_exp99 100
      ≠ some (TCResult.reject RejectReason.issuer_mismatch) ∧
    token_check dconf_hs256_issA create_auth_jwt_config key32 tok_exp99 100
      = some TCResult.ok := by
  have h1 := C7_claim_equality_checks dconf_hs256_issA create_auth_jwt_config key32 tok_issB 100
    "HS256" 2 (by decide) (by decide) (by decide) (by decide) (by decide)
  have h2 := C7_claim_equality_checks dconf_hs256_issA create_auth_jwt_config key32 tok_exp99 100
    "HS256" 2 (by decide) (by decide) (by decide) (by decide) (by decide)
  exact ⟨h1.1.mpr (by decide), h2.2.2.2 (by decide), by decide⟩

/-- C8: with credentials supplied, an empty provider list yields
AUTH_GENERAL_ERROR; otherwise the providers are consulted in order and the
chain returns the first verdict different from AUTH_USER_NOT_FOUND, or
AUTH_USER_NOT_FOUND when every provider returns it; providers
[UserNotFound, Granted] yield Granted after consulting both, and a leading
Denied stops the chain after one consultation, surfacing as 401. -/
theorem C8_provider_chain (providers : List authn_status) (u p : String) (v2 : authn_status) :
    check_authn_loop [] (some u) (some p) = (authn_status.AUTH_GENERAL_ERROR, 0) ∧
    ((check_authn_loop providers (some u) (some p)).1
      = match providers.find? (fun v => decide (v ≠ authn_status.AUTH_USER_NOT_FOUND)) with
        | some v => v
        | none =>
          if providers.isEmpty then authn_status.AUTH_GENERAL_ERROR
          else authn_status.AUTH_USER_NOT_FOUND) ∧
    check_authn_loop [authn_status.AUTH_USER_NOT_FOUND, authn_status.AUTH_GRANTED]
        (some u) (some p) = (authn_status.AUTH_GRANTED, 2) ∧
    check_authn_loop (authn_status.AUTH_DENIED :: [v2]) (some u) (some p)
      = (authn_status.AUTH_DENIED, 1) ∧
    check_authn { create_auth_jwt_dir_config with providers := authn_status.AUTH_DENIED :: [v2] }
        (some u) (some p) = 401 := by
  refine ⟨by simp [check_authn_loop], ?_, by simp [check_authn_loop], ?_, ?_⟩
  · induction providers with
    | nil => simp [check_authn_loop]
    | cons v rest ih =>
      by_cases hv : v = authn_status.AUTH_USER_NOT_FOUND
      · subst hv
        cases rest with
        | nil => simp [check_authn_loop]
        | cons w ws =>
          have hstep : (check_authn_loop
                (authn_status.AUTH_USER_NOT_FOUND :: w :: ws) (some u) (some p)).1
              = (check_authn_loop (w :: ws) (some u) (some p)).1 := rfl
          have hhead : List.find? (fun v => decide (v ≠ authn_status.AUTH_USER_NOT_FOUND))
                (authn_status.AUTH_USER_NOT_FOUND :: w :: ws)
              = List.find? (fun v => decide (v ≠ authn_status.AUTH_USER_NOT_FOUND))
                (w :: ws) := rfl
          rw [hstep, ih, hhead]
          cases hfind : List.find? (fun v => decide (v ≠ authn_status.AUTH_USER_NOT_FOUND))
              (w :: ws) <;>
            simp [hfind]
      · simp [check_authn_loop, hv, List.find?_cons]
  · simp [check_authn_loop]
  · simp [check_authn, check_authn_loop]

/-- C9 counterexample: a verification run where the leeway lookup resolves
(directory leeway 2) but no signature algorithm is configured in either
scope gets stuck at the unguarded use of the resolved signature algorithm —
`token_check` hands it to the `strcmp` chain of `check_key_length` without
an absence test — refuting the claim's assertion that every resolved value
other than leeway is tested for absence before use. -/
theorem C9_counterexample :
    resolve_leeway dconf_leeway2 create_auth_jwt_config = some 2 ∧
    resolve_signature_algorithm dconf_leeway2 create_auth_jwt_config = none ∧
    token_check dconf_leeway2 create_auth_jwt_config key32 tok_exp99 100 = none := by
  decide

/-- C9 (amended): the leeway resolver returns absent whenever the directory
stored leeway is 0 (its default) and the server scope never set leeway, the
default scopes satisfy exactly that, and `token_check` is stuck on
undefined behaviour exactly when either the resolved signature algorithm is
absent (also used unguarded), or the key-length, decode and none-algorithm
stages pass and the leeway resolver returns absent at the unguarded
`*(int*)` dereference — in particular, absence of the resolved iss, aud or
sub values never strands the pipeline. -/
theorem C9_amended_unguarded_leeway (dconf sconf : auth_jwt_config_rec) (key : String)
    (tok : DecodedToken) (now : Int) :
    (dconf.leeway = 0 → sconf.leeway_set = false → resolve_leeway dconf sconf = none) ∧
    create_auth_jwt_dir_config.leeway = 0 ∧
    create_auth_jwt_config.leeway_set = false ∧
    (token_check dconf sconf key tok now = none ↔
      (resolve_signature_algorithm dconf sconf = none ∨
        (∃ alg : String, resolve_signature_algorithm dconf sconf = some alg ∧
          check_key_length key alg = KeyCheckResult.ok ∧
          tok.decode_ok = true ∧
          tok.alg ≠ jwt_alg_t.JWT_ALG_NONE ∧
          resolve_leeway dconf sconf = none))) := by
  refine ⟨?_, by decide, by decide, ?_⟩
  · intro h0 hs0
    simp [resolve_leeway, h0, hs0]
  · cases halg : resolve_signature_algorithm dconf sconf with
    | none => simp [token_check, halg]
    | some alg =>
      by_cases hkey : check_key_length key alg = KeyCheckResult.ok
      · cases hdec : tok.decode_ok with
        | false => simp [token_check, halg, hkey, hdec]
        | true =>
          by_cases hal : tok.alg = jwt_alg_t.JWT_ALG_NONE
          · simp [token_check, halg, hkey, hdec, hal]
          · cases hlee : resolve_leeway dconf sconf with
            | none => simp [token_check, halg, hkey, hdec, hal, hlee]
            | some l => simp [token_check, halg, hkey, hdec, hal, hlee]
      · simp [token_check, halg, hkey]

/-- C9 witness: with HS256 configured at directory level and leeway nowhere
set, the leeway resolver returns absent and `token_check` on a valid token
is stuck at the unguarded dereference. -/
theorem C9_amended_unguarded_leeway_witness :
    resolve_leeway dconf_hs256 create_auth_jwt_config = none ∧
    token_check dconf_hs256 create_auth_jwt_config key32 tok_exp99 100 = none := by
  have h := C9_amended_unguarded_leeway dconf_hs256 create_auth_jwt_config key32 tok_exp99 100
  refine ⟨h.1 (by decide) (by decide), ?_⟩
  exact h.2.2.2.mpr (Or.inr
    ⟨"HS256", by decide, by decide, by decide, by decide, h.1 (by decide) (by decide)⟩)

/-- C10: the bearer-token handler resolves the signature secret and answers
its absence with an internal server error before the Authorization header
is examined, so with no secret configured every request — including one
with no Authorization header — gets the internal error, never the
unauthorized realm challenge. -/
theorem C10_secret_checked_before_header (dconf sconf : auth_jwt_config_rec)
    (auth_name : String) (header : Option String) (tok : DecodedToken) (now : Int)
    (hsec : resolve_signature_secret dconf sconf = none) :
    auth_jwt_authn_with_token dconf sconf (some "jwt") (some auth_name) header tok now
      = some AuthnHandlerResult.internalError ∧
    auth_jwt_authn_with_token dconf sconf (some "jwt") (some auth_name) none tok now
      ≠ some AuthnHandlerResult.unauthorizedRealm := by
  have hmain : ∀ hd : Option String,
      auth_jwt_authn_with_token dconf sconf (some "jwt") (some auth_name) hd tok now
        = some AuthnHandlerResult.internalError := by
    intro hd
    simp [auth_jwt_authn_with_token, hsec]
  refine ⟨hmain header, ?_⟩
  rw [hmain none]
  decide

/-- C10 witness: with the default scopes (no secret configured anywhere)
and no Authorization header, the handler returns the internal error. -/
theorem C10_secret_checked_before_header_witness :
    auth_jwt_authn_with_token create_auth_jwt_dir_config create_auth_jwt_config
        (some "jwt") (some "private_area") none tok_exp99 100
      = some AuthnHandlerResult.internalError :=
  (C10_secret_checked_before_header create_auth_jwt_dir_config create_auth_jwt_config
    "private_area" none tok_exp99 100 (by decide)).1
